import Mathlib

/-!
Verification development for the livekit-share session lifecycle controller.

Each definition below is a shallow embedding of a function of the TypeScript
source (src/src/hooks/useLiveKitRoom.ts, src/src/components/ParticipantList.tsx,
and the hooks usePresenterSignal / useLiveKitChat). Machine timers are modelled
as explicit armed flags or event schedules; React `setState(prev => ...)`
updater queues are modelled by applying the updaters in call order.
-/

namespace LivekitShare

/-! ## Reconnect backoff policy

Embeds `nextRetryDelayInMs` from useLiveKitRoom.ts (lines 292-297):
`const delay = Math.min(500 * Math.pow(2, context.retryCount), 8000)`. -/

/-- The custom reconnect policy delay, in milliseconds, for a given
`retryCount` (useLiveKitRoom.ts line 294). -/
def nextRetryDelayInMs (retryCount : Nat) : Nat :=
  min (500 * 2 ^ retryCount) 8000

/-! ## Presenter-ready signal (usePresenterSignal)

The hook keeps one piece of state, `presenterReady : Bool`, initialised
`false`. The viewer-side data handler parses the payload as JSON and sets the
flag when the `type` field equals "presenter-ready"; the sender participant
argument is received but never inspected (`_participant`). A reset effect sets
the flag to `false` whenever `isConnected` becomes false. -/

/-- A decoded data-channel message as seen by the presenter-signal handler:
only the `type` discriminator and timestamp are relevant
(interface PresenterReadyMessage in the source). -/
structure PMsg where
  type : String
  ts : Nat
deriving DecidableEq, Repr

/-- The remote participant metadata the transport hands to a data handler.
The handler in the source binds it as `_participant` and ignores it. -/
structure Sender where
  identity : String
  role : String
deriving DecidableEq, Repr

/-- The viewer-side `handleData` callback of usePresenterSignal: a payload
that fails to parse (`none`) is ignored; a parsed message sets
`presenterReady := true` exactly when its `type` field is "presenter-ready".
The `sender` argument is bound but unused, as in the source
(`_participant?: RemoteParticipant`). -/
def handleData (payload : Option PMsg) (sender : Option Sender)
    (presenterReady : Bool) : Bool :=
  match payload with
  | none => presenterReady
  | some m => if m.type == "presenter-ready" then true else presenterReady

/-- Events driving the presenter-signal state: a data payload arriving (with
its sender), the transport disconnecting (`isConnected` becomes false, which
triggers the reset effect), and the transport (re)connecting (no effect on
`presenterReady`). -/
inductive SigEv where
  | dataReceived (payload : Option PMsg) (sender : Option Sender)
  | disconnected
  | connected
deriving DecidableEq, Repr

/-- One step of the presenter-signal state machine, from the source's
data handler and reset effect. -/
def sigStep (presenterReady : Bool) (e : SigEv) : Bool :=
  match e with
  | .dataReceived p s => handleData p s presenterReady
  | .disconnected => false
  | .connected => presenterReady

/-- Run the presenter-signal machine from a given flag value. -/
def sigRunFrom (presenterReady : Bool) (tr : List SigEv) : Bool :=
  tr.foldl sigStep presenterReady

/-- Run the presenter-signal machine from its initial state
(`useState(false)` in the source). -/
def sigRun (tr : List SigEv) : Bool :=
  sigRunFrom false tr

/-- Whether an event is the receipt of a payload decoding to a
presenter-ready message. -/
def isReadyEv (e : SigEv) : Bool :=
  match e with
  | .dataReceived (some m) _ => m.type == "presenter-ready"
  | _ => false

/-- Whether a trace contains a disconnect event. -/
def hasDisc (tr : List SigEv) : Bool :=
  tr.any (fun e => match e with | .disconnected => true | _ => false)

/-- Whether a presenter-ready payload is received after the last disconnect
of the trace (or anywhere, if the trace has no disconnect). -/
def readySinceDisc : List SigEv → Bool
  | [] => false
  | e :: tr => readySinceDisc tr || (isReadyEv e && !hasDisc tr)

/-! ## Presenter broadcast schedule (usePresenterSignal, presenter side)

On becoming connected the presenter effect arms `setTimeout(broadcast, 300)`
and `setInterval(broadcast, 5000)`, both at effect start (t = 0). The
broadcast instants are therefore t = 300 and t = 5000·k for k ≥ 1. -/

/-- The settle delay of the initial broadcast (`setTimeout(..., 300)`). -/
def settleDelayMs : Nat := 300

/-- The repeat interval of the broadcast (`setInterval(..., 5000)`). -/
def signalIntervalMs : Nat := 5000

/-- Whether the connected presenter broadcasts at time `t` (ms after the
effect run at connect): the settle timeout fires once at 300 ms, and the
interval fires at every positive multiple of 5000 ms, both measured from
effect start since both timers are armed synchronously in the effect body. -/
def presenterBroadcastAt (t : Nat) : Bool :=
  t == settleDelayMs || (t != 0 && t % signalIntervalMs == 0)

/-! ## Session controller media timeout (useLiveKitRoom)

`startMediaTimeout(timeout = 8000)` first clears any pending timer, then,
for the viewer role only, arms an 8000 ms timer whose callback disconnects
the room and sets the status to 'idle'. The timer is cleared by
`clearMediaTimeout`, which is called from `attachAudioTrack` (on a fresh
attach), from `updateScreenTrack` when a screen track is found, and from the
disconnect paths. `startMediaTimeout` is invoked only once, near the end of
`connect()` (line 439); the `RoomEvent.Reconnected` handler (lines 328-333)
only sets the status and rehydrates/reattaches media — it does not call
`startMediaTimeout`. -/

/-- The participant role prop of the hook. -/
inductive Role where
  | presenter
  | viewer
deriving DecidableEq, Repr

/-- The extended connection state machine of useLiveKitRoom
(type ConnectionStatus). -/
inductive ConnectionStatus where
  | idle
  | connecting
  | connected
  | publishing
  | waiting
  | live
  | reconnecting
  | failed
  | ended
  | error
deriving DecidableEq, Repr

/-- The controller state relevant to the media-timeout behaviour:
the status and the pending media timer (`mediaTimeoutRef`), carried as
`some duration` when armed. -/
structure CtrlState where
  status : ConnectionStatus
  mediaTimer : Option Nat
deriving DecidableEq, Repr

/-- The default timeout of `startMediaTimeout(timeout = 8000)`. -/
def defaultMediaTimeoutMs : Nat := 8000

/-- Embeds `clearMediaTimeout` (lines 83-88): cancels the pending timer. -/
def clearMediaTimeout (s : CtrlState) : CtrlState :=
  { s with mediaTimer := none }

/-- Embeds `startMediaTimeout` (lines 91-106): clears any pending timer, then arms
a new one only when the role is viewer. -/
def startMediaTimeout (role : Role) (timeout : Nat) (s : CtrlState) : CtrlState :=
  let s1 := clearMediaTimeout s
  if role = Role.viewer then { s1 with mediaTimer := some timeout } else s1

/-- Controller events relevant to the media timeout:
`connectSuccess` is the tail of `connect()` after the transport connect
resolves (status publishing → startMediaTimeout() → status waiting);
`reconnectingEv` is ConnectionStateChanged(Reconnecting);
`reconnectedEv` is RoomEvent.Reconnected;
`attachMedia` is a fresh media attachment (audio attach, or a screen track
becoming visible), which calls `clearMediaTimeout`;
`mediaTimeoutFire` is the armed timer expiring (its callback disconnects and
then sets status 'idle');
`disconnectedEv` is ConnectionState.Disconnected / RoomEvent.Disconnected. -/
inductive CtrlEv where
  | connectSuccess
  | reconnectingEv
  | reconnectedEv
  | attachMedia
  | mediaTimeoutFire
  | disconnectedEv
deriving DecidableEq, Repr

/-- One controller step, from the event handlers of `connect()`. -/
def ctrlStep (role : Role) (s : CtrlState) (e : CtrlEv) : CtrlState :=
  match e with
  | .connectSuccess =>
      let s1 := startMediaTimeout role defaultMediaTimeoutMs s
      { s1 with status := ConnectionStatus.waiting }
  | .reconnectingEv => { s with status := ConnectionStatus.reconnecting }
  | .reconnectedEv => { s with status := ConnectionStatus.connected }
  | .attachMedia => clearMediaTimeout s
  | .mediaTimeoutFire =>
      match s.mediaTimer with
      | some _ => { status := ConnectionStatus.idle, mediaTimer := none }
      | none => s
  | .disconnectedEv =>
      clearMediaTimeout { s with status := ConnectionStatus.ended }

/-- The initial controller state (`useState('idle')`, no timer). -/
def ctrlInit : CtrlState :=
  { status := ConnectionStatus.idle, mediaTimer := none }

/-- Run the controller over a trace of events. -/
def ctrlRun (role : Role) (tr : List CtrlEv) : CtrlState :=
  tr.foldl (ctrlStep role) ctrlInit

/-! ## Track attachment map (useLiveKitRoom)

`attachedTracksRef` is a `Map<string, HTMLMediaElement>` keyed by
`` `${participant.identity}-${publication.trackSid}` ``. We model the map as
an association list in insertion order and an audio element by its `muted`
flag (the only property the claims inspect). -/

/-- An attached HTML audio element, reduced to its muted flag. -/
structure AudioElem where
  muted : Bool
deriving DecidableEq, Repr

/-- The attached-tracks map, in insertion order. -/
abbrev AttachedMap : Type := List (String × AudioElem)

/-- The map key `` `${identity}-${trackSid}` `` (line 156). -/
def trackKey (identity trackSid : String) : String :=
  identity ++ "-" ++ trackSid

/-- Embeds `attachAudioTrack` (lines 153-190): returns unchanged for a non-audio
track; returns unchanged when the key is already attached; otherwise creates
an element, applies the current speaker state
(`audioElement.muted = !isSpeakerEnabled`) and records the mapping. -/
def attachAudioTrack (kind identity trackSid : String)
    (isSpeakerEnabled : Bool) (m : AttachedMap) : AttachedMap :=
  if kind != "audio" then m
  else
    let k := trackKey identity trackSid
    if m.any (fun p => p.1 == k) then m
    else m ++ [(k, { muted := !isSpeakerEnabled })]

/-- Embeds `detachAudioTrack` (lines 193-203): removes the element recorded under
the key, a no-op when absent. -/
def detachAudioTrack (identity trackSid : String) (m : AttachedMap) :
    AttachedMap :=
  let k := trackKey identity trackSid
  m.filter (fun p => p.1 != k)

/-- Embeds `updateSpeakerMuteState` (lines 206-212): sets the muted flag on every
attached element. -/
def updateSpeakerMuteState (muted : Bool) (m : AttachedMap) : AttachedMap :=
  m.map (fun p => (p.1, { muted := muted }))

/-- JavaScript `s.startsWith(p)`, embedded over the character lists of the
strings so that it evaluates inside the kernel (core `String.startsWith`
is defined by well-founded recursion and does not reduce). -/
def strStartsWith (s p : String) : Bool :=
  p.data.isPrefixOf s.data

/-- Embeds `muteParticipant` (lines 578-590): sets the muted flag on every element
whose key starts with the given identity string
(`trackId.startsWith(participantIdentity)`). -/
def muteParticipant (participantIdentity : String) (muted : Bool)
    (m : AttachedMap) : AttachedMap :=
  m.map (fun p =>
    if strStartsWith p.1 participantIdentity then (p.1, { p.2 with muted := muted })
    else p)

/-- The operations that mutate the attached-tracks map in the source. -/
inductive AttachOp where
  | attach (kind identity trackSid : String) (isSpeakerEnabled : Bool)
  | detach (identity trackSid : String)
  | setAllMuted (muted : Bool)
  | mutePart (participantIdentity : String) (muted : Bool)
deriving DecidableEq, Repr

/-- Apply one attachment-map operation. -/
def applyAttachOp (m : AttachedMap) (op : AttachOp) : AttachedMap :=
  match op with
  | .attach kind identity trackSid sp => attachAudioTrack kind identity trackSid sp m
  | .detach identity trackSid => detachAudioTrack identity trackSid m
  | .setAllMuted muted => updateSpeakerMuteState muted m
  | .mutePart identity muted => muteParticipant identity muted m

/-- Run a sequence of operations from the empty map (`new Map()`). -/
def runAttachOps (ops : List AttachOp) : AttachedMap :=
  ops.foldl applyAttachOp []

/-- The number of entries recorded under a key. -/
def countKey (m : AttachedMap) (k : String) : Nat :=
  (m.filter (fun p => p.1 == k)).length

/-! ## Chat protocol (useLiveKitChat)

`handleDataReceived` decodes the payload, parses it as JSON
(`JSON.parse(decoded) as ChatMessage`; a parse failure is caught and
logged), validates `if (!message.id || !message.type || !message.text ||
!message.ts) return;`, and then appends unless some stored message has the
same `id`. A parsed message is modelled with `Option` fields since the cast
does not check field presence; JavaScript truthiness of a string is
"present and non-empty", of a number "present and non-zero". The source
field `from` is a Lean keyword and is embedded as `sender`. -/

/-- A chat message as it comes out of `JSON.parse` — every field of the
ChatMessage interface may be absent. -/
structure ChatMsg where
  id : Option String
  type : Option String
  sender : Option String
  role : Option String
  text : Option String
  ts : Option Nat
deriving DecidableEq, Repr

/-- JavaScript truthiness of an optional string: present and non-empty. -/
def truthyStr (o : Option String) : Bool :=
  match o with
  | none => false
  | some s => s != ""

/-- JavaScript truthiness of an optional number: present and non-zero. -/
def truthyNat (o : Option Nat) : Bool :=
  match o with
  | none => false
  | some n => n != 0

/-- The structure validation of `handleDataReceived` (line 224):
`!(!message.id || !message.type || !message.text || !message.ts)`. -/
def chatMsgValid (m : ChatMsg) : Bool :=
  truthyStr m.id && truthyStr m.type && truthyStr m.text && truthyNat m.ts

/-- Embeds `handleDataReceived` (lines 215-241), acting on the message log:
`none` models a payload whose JSON parse threw (caught, log unchanged);
an invalid structure returns the log unchanged; a duplicate `id` returns the
log unchanged; otherwise the message is appended. -/
def handleDataReceived (payload : Option ChatMsg) (messages : List ChatMsg) :
    List ChatMsg :=
  match payload with
  | none => messages
  | some m =>
    if !chatMsgValid m then messages
    else if messages.any (fun p => p.id == m.id) then messages
    else messages ++ [m]

/-- The number of stored messages carrying a given `id`. -/
def countMsgId (i : Option String) (messages : List ChatMsg) : Nat :=
  (messages.filter (fun p => p.id == i)).length


/-! ## Roster builder (ParticipantList.tsx)

The component keeps `roster : RosterEntry[]` (React state),
`knownIdentitiesRef : Set<string>` and `graceTimersRef : Map<string, Timeout>`.
On every membership change one effect runs which, in order:
1. calls `buildRoster()` — queues a state update replacing the roster with
   the live entries plus the previous entries that have status
   'reconnecting' and are not live ("ghosts"), and returns the live entries;
2. for each live identity not previously known (an arrival), cancels its
   grace timer if one is pending;
3. for each previously known identity that is no longer live and has no
   pending timer (a departure), queues a state update marking its roster
   entry 'reconnecting' and starts an 8 s removal timer
   (`GRACE_PERIOD_MS = 8000`) whose callback filters the identity out of
   the roster;
4. replaces the known set by the current live identities.
React applies queued functional state updates in call order, so the merge of
step 1 is applied before the marking of step 3. Entries are modelled by
identity and membership status; displayName/role/isLocal/isMuted and the
sort comparator affect only presentation order and are omitted, as is the
`newIdentities`/`departingIdentities` animation state. -/

/-- Roster membership status (the `status` field of RosterEntry). -/
inductive RStatus where
  | connected
  | reconnecting
deriving DecidableEq, Repr

/-- A roster entry, reduced to the fields the membership logic reads. -/
structure REntry where
  identity : String
  status : RStatus
deriving DecidableEq, Repr

/-- The grace period before a departed identity is removed
(`GRACE_PERIOD_MS`). -/
def GRACE_PERIOD_MS : Nat := 8000

/-- The roster-builder state: the rendered roster, the previously known
identities, and the identities with a pending grace timer. -/
structure RosterState where
  roster : List REntry
  known : List String
  timers : List String
deriving DecidableEq, Repr

/-- The merge inside `buildRoster` (lines 76-93, sort omitted): live entries
with status 'connected', followed by the previous entries that have status
'reconnecting' and do not appear live. -/
def mergeRoster (prev : List REntry) (live : List String) : List REntry :=
  let liveEntries := live.map (fun id => (⟨id, RStatus.connected⟩ : REntry))
  let ghosts := prev.filter (fun e =>
    e.status == RStatus.reconnecting && !(live.contains e.identity))
  liveEntries ++ ghosts

/-- One run of the membership effect (lines 99-155) for a new live identity
list: merge, cancel timers of arrivals, mark departures 'reconnecting' and
arm their grace timers, record the live set as known. -/
def membershipStep (s : RosterState) (live : List String) : RosterState :=
  let roster1 := mergeRoster s.roster live
  let timers1 := s.timers.filter (fun id =>
    !(live.contains id && !(s.known.contains id)))
  let departs := s.known.filter (fun id =>
    !(live.contains id) && !(timers1.contains id))
  let roster2 := roster1.map (fun e =>
    if departs.contains e.identity then { e with status := RStatus.reconnecting }
    else e)
  { roster := roster2, known := live, timers := timers1 ++ departs }

/-- A grace timer firing for an identity (the `setTimeout` callback at
lines 139-148): removes the entry and forgets the timer; a no-op when the
timer is not pending (it was cancelled). -/
def graceFireStep (s : RosterState) (id : String) : RosterState :=
  if s.timers.contains id then
    { roster := s.roster.filter (fun e => e.identity != id),
      known := s.known,
      timers := s.timers.filter (fun t => t != id) }
  else s

/-- Roster events: a membership change (the new live identity list,
local participant plus remotes) or a grace timer firing. -/
inductive RosterEv where
  | membership (live : List String)
  | graceFire (id : String)
deriving DecidableEq, Repr

/-- One roster step. -/
def rosterStep (s : RosterState) (e : RosterEv) : RosterState :=
  match e with
  | .membership live => membershipStep s live
  | .graceFire id => graceFireStep s id

/-- The initial roster state: empty roster, no known identities, no timers. -/
def rosterInit : RosterState :=
  { roster := [], known := [], timers := [] }

/-- Run the roster builder over a trace of events. -/
def rosterRun (tr : List RosterEv) : RosterState :=
  tr.foldl rosterStep rosterInit

/-- Whether an identity appears in the rendered roster. -/
def inRoster (s : RosterState) (id : String) : Bool :=
  s.roster.any (fun e => e.identity == id)


/-! ## Helper lemmas -/

theorem sigRunFrom_eq (tr : List SigEv) :
    ∀ b, sigRunFrom b tr = ((b && !hasDisc tr) || readySinceDisc tr) := by
  induction tr with
  | nil => intro b; simp [sigRunFrom, readySinceDisc, hasDisc]
  | cons e tr ih =>
    intro b
    have hstep : sigRunFrom b (e :: tr) = sigRunFrom (sigStep b e) tr := rfl
    rw [hstep, ih]
    cases e with
    | dataReceived p s =>
      cases p with
      | none =>
        simp [sigStep, handleData, readySinceDisc, isReadyEv, hasDisc]
      | some m =>
        by_cases hm : m.type == "presenter-ready"
        · simp [sigStep, handleData, hm, readySinceDisc, isReadyEv, hasDisc]
          cases b <;> cases readySinceDisc tr <;>
            cases htr : tr.any (fun e => match e with | .disconnected => true | _ => false) <;>
            simp
        · simp [sigStep, handleData, hm, readySinceDisc, isReadyEv, hasDisc]
    | disconnected =>
      simp [sigStep, readySinceDisc, isReadyEv, hasDisc]
    | connected =>
      simp [sigStep, readySinceDisc, isReadyEv, hasDisc]

theorem sigRun_append_disc (tr : List SigEv) :
    sigRun (tr ++ [SigEv.disconnected]) = false := by
  unfold sigRun sigRunFrom
  rw [List.foldl_append]
  rfl

theorem readySinceDisc_eq_false (tr : List SigEv)
    (h : ∀ e ∈ tr, isReadyEv e = false) : readySinceDisc tr = false := by
  induction tr with
  | nil => rfl
  | cons e tr ih =>
    have he : isReadyEv e = false := h e (List.mem_cons_self e tr)
    have ht : ∀ x ∈ tr, isReadyEv x = false :=
      fun x hx => h x (List.mem_cons_of_mem e hx)
    simp [readySinceDisc, ih ht, he]

theorem ctrlStep_presenter_timer (s : CtrlState) (e : CtrlEv)
    (h : s.mediaTimer = none) :
    (ctrlStep Role.presenter s e).mediaTimer = none := by
  cases e <;>
    simp [ctrlStep, startMediaTimeout, clearMediaTimeout, h]

theorem ctrlRun_presenter_timer (tr : List CtrlEv) :
    (ctrlRun Role.presenter tr).mediaTimer = none := by
  have key : ∀ (l : List CtrlEv) (s : CtrlState), s.mediaTimer = none →
      (l.foldl (ctrlStep Role.presenter) s).mediaTimer = none := by
    intro l
    induction l with
    | nil => intro s h; simpa using h
    | cons e l ih =>
      intro s h
      exact ih _ (ctrlStep_presenter_timer s e h)
  exact key tr ctrlInit rfl

theorem countKey_map_of_key_fixed (f : String × AudioElem → String × AudioElem)
    (hf : ∀ p, (f p).1 = p.1) (m : AttachedMap) (k : String) :
    countKey (m.map f) k = countKey m k := by
  unfold countKey
  induction m with
  | nil => rfl
  | cons q l ih =>
    simp only [List.map_cons, List.filter_cons, hf q]
    by_cases hq : q.1 == k
    · simp [hq, ih]
    · simp [hq, ih]

theorem countKey_le_one_step (m : AttachedMap) (op : AttachOp)
    (h : ∀ k, countKey m k ≤ 1) : ∀ k, countKey (applyAttachOp m op) k ≤ 1 := by
  intro k
  cases op with
  | attach kind identity trackSid sp =>
    show countKey (attachAudioTrack kind identity trackSid sp m) k ≤ 1
    unfold attachAudioTrack
    by_cases hk : kind != "audio"
    · simpa [hk] using h k
    · rw [if_neg hk]
      by_cases hmem : m.any (fun p => p.1 == trackKey identity trackSid)
      · simpa [hmem] using h k
      · rw [if_neg hmem]
        unfold countKey
        rw [List.filter_append]
        by_cases hkk : trackKey identity trackSid == k
        · have hzero : (m.filter (fun p => p.1 == k)).length = 0 := by
            rw [List.length_eq_zero, List.filter_eq_nil_iff]
            intro p hp hpk
            apply hmem
            rw [List.any_eq_true]
            refine ⟨p, hp, ?_⟩
            have h1 : p.1 = k := by simpa using hpk
            have h2 : trackKey identity trackSid = k := by simpa using hkk
            simp [h1, h2]
          simp [hkk, hzero, countKey]
        · have : ([((trackKey identity trackSid : String),
              (⟨!sp⟩ : AudioElem))].filter (fun p => p.1 == k)) = [] := by
            simp [hkk]
          rw [this]
          simpa [countKey] using h k
  | detach identity trackSid =>
    show countKey (detachAudioTrack identity trackSid m) k ≤ 1
    unfold detachAudioTrack countKey
    calc ((m.filter (fun p => p.1 != trackKey identity trackSid)).filter
            (fun p => p.1 == k)).length
        ≤ (m.filter (fun p => p.1 == k)).length := by
          apply List.Sublist.length_le
          exact List.Sublist.filter _ (List.filter_sublist m)
      _ ≤ 1 := h k
  | setAllMuted muted =>
    show countKey (updateSpeakerMuteState muted m) k ≤ 1
    unfold updateSpeakerMuteState
    rw [countKey_map_of_key_fixed
      (fun p => (p.1, ({ muted := muted } : AudioElem))) (fun p => rfl)]
    exact h k
  | mutePart identity muted =>
    show countKey (muteParticipant identity muted m) k ≤ 1
    unfold muteParticipant
    rw [countKey_map_of_key_fixed]
    · exact h k
    · intro p
      by_cases hs : strStartsWith p.1 identity <;> simp [hs]

theorem countKey_runAttachOps_le_one (ops : List AttachOp) (k : String) :
    countKey (runAttachOps ops) k ≤ 1 := by
  have key : ∀ (l : List AttachOp) (m : AttachedMap),
      (∀ k, countKey m k ≤ 1) → ∀ k, countKey (l.foldl applyAttachOp m) k ≤ 1 := by
    intro l
    induction l with
    | nil => intro m h; exact h
    | cons op l ih =>
      intro m h
      exact ih _ (countKey_le_one_step m op h)
  refine key ops [] ?_ k
  intro k'
  simp [countKey]

theorem countMsgId_eq_zero_iff (i : Option String) (messages : List ChatMsg) :
    countMsgId i messages = 0 ↔ messages.any (fun p => p.id == i) = false := by
  unfold countMsgId
  rw [List.length_eq_zero, List.filter_eq_nil_iff]
  constructor
  · intro h
    rw [List.any_eq_false]
    intro p hp
    simpa using h p hp
  · intro h p hp
    rw [List.any_eq_false] at h
    simpa using h p hp

theorem strStartsWith_iff (s p : String) :
    strStartsWith s p = true ↔ p.data <+: s.data := by
  unfold strStartsWith
  exact List.isPrefixOf_iff_prefix

theorem countMsgId_append_single (i : Option String) (log : List ChatMsg)
    (m : ChatMsg) :
    countMsgId i (log ++ [m]) =
      countMsgId i log + (if m.id == i then 1 else 0) := by
  unfold countMsgId
  rw [List.filter_append]
  by_cases h : m.id == i <;> simp [h]

/-! ## Claim theorems -/

/-- Claim C1, counterexample: at retry attempt 3 the reconnect policy
returns 4000 ms — the claimed "capped at 8000 ms" value is wrong there,
the cap does not bind before attempt 4. -/
theorem backoff_attempt3_counterexample :
    nextRetryDelayInMs 3 = 4000 ∧ ¬ nextRetryDelayInMs 3 = 8000 := by
  decide

/-- Claim C1 (amended): the reconnect backoff delay is min(500·2^n, 8000) ms:
500, 1000, 2000, 4000 for attempts 0-3, never exceeds 8000 ms, and equals
the 8000 ms cap from attempt 4 onward. -/
theorem backoff_schedule :
    nextRetryDelayInMs 0 = 500 ∧ nextRetryDelayInMs 1 = 1000 ∧
    nextRetryDelayInMs 2 = 2000 ∧ nextRetryDelayInMs 3 = 4000 ∧
    (∀ n, nextRetryDelayInMs n ≤ 8000) ∧
    (∀ n, 4 ≤ n → nextRetryDelayInMs n = 8000) := by
  refine ⟨rfl, rfl, rfl, rfl, ?_, ?_⟩
  · intro n
    exact min_le_right _ _
  · intro n hn
    unfold nextRetryDelayInMs
    have h16 : (16 : Nat) ≤ 2 ^ n := by
      calc (16 : Nat) = 2 ^ 4 := by norm_num
        _ ≤ 2 ^ n := Nat.pow_le_pow_right (by norm_num) hn
    have h8000 : (8000 : Nat) ≤ 500 * 2 ^ n := by
      calc (8000 : Nat) = 500 * 16 := by norm_num
        _ ≤ 500 * 2 ^ n := Nat.mul_le_mul_left 500 h16
    exact min_eq_right h8000

theorem backoff_schedule_witness :
    4 ≤ 10 ∧ nextRetryDelayInMs 10 = 8000 :=
  ⟨by norm_num, backoff_schedule.2.2.2.2.2 10 (by norm_num)⟩

/-- Claim C2, counterexample: a viewer connects (timer armed), media attaches
(timer cancelled), the transport reconnects — and the media timer is not
armed afterwards: the Reconnected handler never calls startMediaTimeout,
contrary to "starts on connect (and on every reconnect)". -/
theorem mediaTimeout_reconnect_counterexample :
    (ctrlRun Role.viewer [CtrlEv.connectSuccess, CtrlEv.attachMedia,
      CtrlEv.reconnectingEv, CtrlEv.reconnectedEv]).status =
      ConnectionStatus.connected ∧
    (ctrlRun Role.viewer [CtrlEv.connectSuccess, CtrlEv.attachMedia,
      CtrlEv.reconnectingEv, CtrlEv.reconnectedEv]).mediaTimer = none := by
  decide

/-- Claim C2 (amended): for the viewer role an 8000 ms media timeout is armed
on connect, but it is not re-armed by a transport reconnect; if it expires
the controller forces the state to idle; any media attachment cancels it;
for the presenter role it is never armed on any reachable trace. -/
theorem mediaTimeout_viewer_schedule :
    defaultMediaTimeoutMs = 8000 ∧
    (∀ s, ctrlStep Role.viewer s CtrlEv.connectSuccess =
      { status := ConnectionStatus.waiting, mediaTimer := some 8000 }) ∧
    (∀ s, s.mediaTimer ≠ none →
      ctrlStep Role.viewer s CtrlEv.mediaTimeoutFire =
        { status := ConnectionStatus.idle, mediaTimer := none }) ∧
    (∀ r s, (ctrlStep r s CtrlEv.attachMedia).mediaTimer = none) ∧
    (∀ r s, (ctrlStep r s CtrlEv.reconnectedEv).mediaTimer = s.mediaTimer) ∧
    (∀ tr, (ctrlRun Role.presenter tr).mediaTimer = none) := by
  refine ⟨rfl, ?_, ?_, ?_, ?_, ctrlRun_presenter_timer⟩
  · intro s; rfl
  · intro s h
    match hs : s.mediaTimer with
    | some d => simp [ctrlStep, hs]
    | none => exact absurd hs h
  · intro r s; rfl
  · intro r s; rfl

theorem mediaTimeout_viewer_schedule_witness :
    ({ status := ConnectionStatus.waiting, mediaTimer := some 8000 } :
      CtrlState).mediaTimer ≠ none ∧
    ctrlStep Role.viewer
      { status := ConnectionStatus.waiting, mediaTimer := some 8000 }
      CtrlEv.mediaTimeoutFire =
      { status := ConnectionStatus.idle, mediaTimer := none } :=
  ⟨by decide, mediaTimeout_viewer_schedule.2.2.1 _ (by decide)⟩

/-- Claim C3: presenterReady starts false, and over every event trace it is
true exactly when a payload decoding to a presenter-ready message arrived
after the last disconnect; it is false right after any disconnect; a viewer
that never receives such a signal keeps it false over the whole trace. -/
theorem presenterReady_signal_invariant :
    sigRun [] = false ∧
    (∀ tr, sigRun tr = readySinceDisc tr) ∧
    (∀ tr, sigRun (tr ++ [SigEv.disconnected]) = false) ∧
    (∀ tr, (∀ e ∈ tr, isReadyEv e = false) → sigRun tr = false) := by
  have hmain : ∀ tr, sigRun tr = readySinceDisc tr := by
    intro tr
    have := sigRunFrom_eq tr false
    simpa [sigRun] using this
  refine ⟨rfl, hmain, sigRun_append_disc, ?_⟩
  intro tr h
  rw [hmain tr]
  exact readySinceDisc_eq_false tr h

theorem presenterReady_signal_invariant_witness :
    (∀ e ∈ [SigEv.connected, SigEv.dataReceived none none],
      isReadyEv e = false) ∧
    sigRun [SigEv.connected, SigEv.dataReceived none none] = false :=
  ⟨by decide, presenterReady_signal_invariant.2.2.2 _ (by decide)⟩

/-- Claim C4, counterexample: the presenter broadcast schedule has a
broadcast at t = 300 ms but none at t = 5300 ms — the 5 s interval is armed
at connect time, not after the settle broadcast, so the second broadcast is
at t = 5000 ms. -/
theorem broadcast_5300_counterexample :
    presenterBroadcastAt 300 = true ∧ presenterBroadcastAt 5300 = false := by
  decide

/-- Claim C4 (amended): the presenter broadcasts first after the 300 ms
settle delay and then at every multiple of the 5 s interval measured from
connect (t = 5000, 10000, ...); there is no broadcast at t = 5300 ms. -/
theorem broadcast_schedule :
    settleDelayMs = 300 ∧ signalIntervalMs = 5000 ∧
    presenterBroadcastAt 300 = true ∧ presenterBroadcastAt 5000 = true ∧
    (∀ k, 1 ≤ k → presenterBroadcastAt (5000 * k) = true) ∧
    presenterBroadcastAt 5300 = false := by
  refine ⟨rfl, rfl, by decide, by decide, ?_, by decide⟩
  intro k hk
  have h1 : 5000 * k ≠ 0 := by omega
  have h2 : 5000 * k % 5000 = 0 := Nat.mul_mod_right 5000 k
  unfold presenterBroadcastAt settleDelayMs signalIntervalMs
  rw [Bool.or_eq_true, Bool.and_eq_true]
  right
  constructor
  · simpa [bne_iff_ne] using h1
  · simp [h2]

theorem broadcast_schedule_witness :
    1 ≤ 2 ∧ presenterBroadcastAt (5000 * 2) = true :=
  ⟨by norm_num, broadcast_schedule.2.2.2.2.1 2 (by norm_num)⟩

/-- Claim C5: attachAudioTrack is idempotent — attaching an already-attached
(identity, publication) handle is a no-op — and every attachment map
reachable by the source's operations holds at most one element per key. -/
theorem attach_idempotent_unique_sink :
    (∀ kind identity trackSid sp m,
      attachAudioTrack kind identity trackSid sp
        (attachAudioTrack kind identity trackSid sp m) =
      attachAudioTrack kind identity trackSid sp m) ∧
    (∀ ops k, countKey (runAttachOps ops) k ≤ 1) := by
  refine ⟨?_, countKey_runAttachOps_le_one⟩
  intro kind identity trackSid sp m
  by_cases hk : kind != "audio"
  · simp [attachAudioTrack, hk]
  · by_cases hmem : m.any (fun p => p.1 == trackKey identity trackSid)
    · simp [attachAudioTrack, hk, hmem]
    · have hnew : ((m ++ [(trackKey identity trackSid,
          ({ muted := !sp } : AudioElem))]).any
          (fun p => p.1 == trackKey identity trackSid)) = true := by
        simp
      simp [attachAudioTrack, hk, hmem, hnew]

/-- Claim C6 (code bug): when "viewer-a" disappears from live membership it
is dropped from the rendered roster at once — the ghost filter keeps only
entries already marked reconnecting, but the reconnecting mark is queued
after the merge that discards the entry — while its 8 s grace timer is
armed; when it reappears within the window it is re-inserted, i.e. a
removal-then-reinsertion happens. -/
theorem roster_grace_removal_reinsert :
    inRoster (rosterRun [RosterEv.membership ["presenter-1", "viewer-a"]])
      "viewer-a" = true ∧
    inRoster (rosterRun [RosterEv.membership ["presenter-1", "viewer-a"],
      RosterEv.membership ["presenter-1"]]) "viewer-a" = false ∧
    (rosterRun [RosterEv.membership ["presenter-1", "viewer-a"],
      RosterEv.membership ["presenter-1"]]).timers = ["viewer-a"] ∧
    inRoster (rosterRun [RosterEv.membership ["presenter-1", "viewer-a"],
      RosterEv.membership ["presenter-1"],
      RosterEv.membership ["presenter-1", "viewer-a"]]) "viewer-a" = true ∧
    GRACE_PERIOD_MS = 8000 := by
  decide

/-- Claim C7, counterexample: an inbound chat payload with both
senderIdentity (source field `from`) and senderRole (`role`) absent passes
validation and is appended to the log — the receiver checks only id, type,
text and ts. -/
theorem chat_missing_sender_accepted :
    handleDataReceived
      (some ⟨some "m1", some "chat", none, none, some "hi", some 12345⟩)
      [] =
      [⟨some "m1", some "chat", none, none, some "hi", some 12345⟩] ∧
    (⟨some "m1", some "chat", none, none, some "hi", some 12345⟩ :
      ChatMsg).sender = none ∧
    (⟨some "m1", some "chat", none, none, some "hi", some 12345⟩ :
      ChatMsg).role = none := by
  decide

/-- Claim C7 (amended): the receiver validates that id, kind, text and
sentAtMs are present and truthy — senderIdentity and senderRole are not
checked; a payload that fails to parse or fails that validation leaves the
log unchanged, and a validated fresh message is appended. -/
theorem chat_validation :
    (∀ log, handleDataReceived none log = log) ∧
    (∀ m log, chatMsgValid m = false →
      handleDataReceived (some m) log = log) ∧
    (∀ (m : ChatMsg) (log : List ChatMsg), chatMsgValid m = true →
      log.any (fun p => p.id == m.id) = false →
      handleDataReceived (some m) log = log ++ [m]) := by
  refine ⟨fun log => rfl, ?_, ?_⟩
  · intro m log h
    simp [handleDataReceived, h]
  · intro m log h1 h2
    simp [handleDataReceived, h1, h2]

theorem chat_validation_witness :
    chatMsgValid
      ⟨some "w1", some "chat", some "alice", some "viewer", some "yo",
        some 7⟩ = true ∧
    ([] : List ChatMsg).any (fun p => p.id ==
      (⟨some "w1", some "chat", some "alice", some "viewer", some "yo",
        some 7⟩ : ChatMsg).id) = false ∧
    handleDataReceived
      (some ⟨some "w1", some "chat", some "alice", some "viewer", some "yo",
        some 7⟩) [] =
      [⟨some "w1", some "chat", some "alice", some "viewer", some "yo",
        some 7⟩] :=
  ⟨by decide, by decide, chat_validation.2.2 _ [] (by decide) (by decide)⟩

/-- Claim C8: an inbound message whose id already appears in the log is
silently ignored, and two deliveries carrying the same id leave at most one
stored copy of that id. -/
theorem chat_dedup_by_id :
    (∀ (m : ChatMsg) (log : List ChatMsg),
      log.any (fun p => p.id == m.id) = true →
      handleDataReceived (some m) log = log) ∧
    (∀ (m1 m2 : ChatMsg) (log : List ChatMsg), m1.id = m2.id →
      countMsgId m1.id log = 0 →
      countMsgId m1.id
        (handleDataReceived (some m2)
          (handleDataReceived (some m1) log)) ≤ 1) := by
  constructor
  · intro m log h
    by_cases hv : chatMsgValid m <;> simp [handleDataReceived, hv, h]
  · intro m1 m2 log hid h0
    have hany : log.any (fun p => p.id == m1.id) = false :=
      (countMsgId_eq_zero_iff _ _).mp h0
    by_cases hv1 : chatMsgValid m1
    · have hstep1 : handleDataReceived (some m1) log = log ++ [m1] := by
        simp [handleDataReceived, hv1, hany]
      have hcount1 : countMsgId m1.id (log ++ [m1]) = 1 := by
        rw [countMsgId_append_single, h0]
        simp
      rw [hstep1]
      by_cases hv2 : chatMsgValid m2
      · have hany2 : (log ++ [m1]).any (fun p => p.id == m2.id) = true := by
          rw [List.any_append]
          have : (m1.id == m2.id) = true := by simp [hid]
          simp [this]
        have hstep2 : handleDataReceived (some m2) (log ++ [m1]) =
            log ++ [m1] := by
          simp [handleDataReceived, hv2, hany2]
        rw [hstep2, hcount1]
      · have hstep2 : handleDataReceived (some m2) (log ++ [m1]) =
            log ++ [m1] := by
          simp [handleDataReceived, hv2]
        rw [hstep2, hcount1]
    · have hstep1 : handleDataReceived (some m1) log = log := by
        simp [handleDataReceived, hv1]
      rw [hstep1]
      by_cases hv2 : chatMsgValid m2
      · by_cases hany2 : log.any (fun p => p.id == m2.id)
        · have hstep2 : handleDataReceived (some m2) log = log := by
            simp [handleDataReceived, hv2, hany2]
          rw [hstep2, h0]
          norm_num
        · have hstep2 : handleDataReceived (some m2) log = log ++ [m2] := by
            simp [handleDataReceived, hv2, hany2]
          rw [hstep2, countMsgId_append_single, h0]
          simp [hid]
      · have hstep2 : handleDataReceived (some m2) log = log := by
          simp [handleDataReceived, hv2]
        rw [hstep2, h0]
        norm_num

theorem chat_dedup_by_id_witness :
    (⟨some "d1", some "chat", some "a", some "viewer", some "x", some 1⟩ :
      ChatMsg).id =
    (⟨some "d1", some "chat", some "b", some "viewer", some "y", some 2⟩ :
      ChatMsg).id ∧
    countMsgId (some "d1") ([] : List ChatMsg) = 0 ∧
    countMsgId (some "d1")
      (handleDataReceived
        (some ⟨some "d1", some "chat", some "b", some "viewer", some "y",
          some 2⟩)
        (handleDataReceived
          (some ⟨some "d1", some "chat", some "a", some "viewer", some "x",
            some 1⟩) [])) ≤ 1 :=
  ⟨by decide, by decide,
    chat_dedup_by_id.2
      ⟨some "d1", some "chat", some "a", some "viewer", some "x", some 1⟩
      ⟨some "d1", some "chat", some "b", some "viewer", some "y", some 2⟩
      [] (by decide) (by decide)⟩

/-- Claim C9: the presenter-ready data handler never inspects the sending
participant — its result is identical for every sender — and any payload
whose type field is "presenter-ready" sets presenterReady to true whoever
sent it, including a sender whose role is "viewer". -/
theorem signal_sender_unchecked :
    (∀ p (s1 s2 : Option Sender) b, handleData p s1 b = handleData p s2 b) ∧
    (∀ b ts (s : Option Sender),
      handleData (some ⟨"presenter-ready", ts⟩) s b = true) := by
  constructor
  · intro p s1 s2 b
    rfl
  · intro b ts s
    simp [handleData]

/-- Claim C10: muteParticipant sets the muted flag on every attached element
whose key starts with the given identity string; since keys are
identity ++ "-" ++ trackSid, muting "viewer-1" also mutes the element
attached for "viewer-12". -/
theorem muteParticipant_key_match :
    (∀ (m : AttachedMap) identity b k e,
      (k, e) ∈ muteParticipant identity b m →
      strStartsWith k identity = true → e.muted = b) ∧
    muteParticipant "viewer-1" true
      [("viewer-1-TRa", ⟨false⟩), ("viewer-12-TRb", ⟨false⟩)] =
      [("viewer-1-TRa", ⟨true⟩), ("viewer-12-TRb", ⟨true⟩)] ∧
    strStartsWith "viewer-12-TRb" "viewer-1" = true := by
  refine ⟨?_, by decide, by decide⟩
  intro m identity b k e hmem hsw
  unfold muteParticipant at hmem
  rw [List.mem_map] at hmem
  obtain ⟨q, hq, hfq⟩ := hmem
  by_cases hs : strStartsWith q.1 identity
  · rw [if_pos hs] at hfq
    injection hfq with h1 h2
    rw [← h2]
  · rw [if_neg hs] at hfq
    have hk1 : q.1 = k := by rw [hfq]
    rw [hk1] at hs
    exact absurd hsw hs

theorem muteParticipant_key_match_witness :
    ("viewer-12-TRb", (⟨true⟩ : AudioElem)) ∈
      muteParticipant "viewer-1" true
        [("viewer-1-TRa", ⟨false⟩), ("viewer-12-TRb", ⟨false⟩)] ∧
    strStartsWith "viewer-12-TRb" "viewer-1" = true ∧
    (⟨true⟩ : AudioElem).muted = true :=
  ⟨by decide, by decide,
    muteParticipant_key_match.1
      [("viewer-1-TRa", ⟨false⟩), ("viewer-12-TRb", ⟨false⟩)]
      "viewer-1" true "viewer-12-TRb" ⟨true⟩ (by decide) (by decide)⟩

end LivekitShare
